import Mathlib

/-!
Shallow embedding of the SOF test runner (`src/tools/testrunner.py`).

The per-case execution engine (`BasicTestRunner.runcase`) is embedded as a
function from a test-case descriptor and an execution scenario to the list of
reporting-hook events it emits, together with the observable effects the
specification talks about (whether a child process was spawned, the state of
the timer field after the call).  The scenario type enumerates the possible
interleavings of the child process, the one-shot timeout timer and an
asynchronous `KeyboardInterrupt`, at the granularity of the statements of the
Python source.  Exceptions raised inside the `try` block are made explicit in
the `Exn` type and are consumed by the embedded `except` handlers, exactly as
in the source.

The batch driver (`LocalTestRunner.run`) is embedded over a JSON-like value
type, because the Python constructor call stores dynamically typed values
into the `TestCaseInfo` dataclass without enforcing its annotations.
-/

/-- Python `float` values as used for `TestCaseInfo.timeout` (the source
tests them with `math.isfinite` and `> 0`). -/
inductive PyFloat
  | finite (q : ℚ)
  | inf
  | negInf
  | nan
deriving DecidableEq, Repr

/-- `math.isfinite`. -/
def PyFloat.isfinite : PyFloat → Bool
  | .finite _ => true
  | _ => false

/-- Python comparison `x > 0` on floats (`nan > 0` is `False`). -/
def PyFloat.gtZero : PyFloat → Bool
  | .finite q => decide (0 < q)
  | .inf => true
  | .negInf => false
  | .nan => false

/-- Split a character list on a separator character (the semantics of
`str.split(sep)` for a one-character separator). -/
def splitOnChar (c : Char) : List Char → List (List Char)
  | [] => [[]]
  | a :: t =>
    let r := splitOnChar c t
    if a = c then [] :: r
    else
      match r with
      | [] => [[a]]
      | h :: t2 => (a :: h) :: t2

/-- `pathlib.PurePath.name`: the last "/"-separated segment of a path. -/
def pathName (p : String) : String :=
  String.mk ((splitOnChar '/' p.toList).getLastD [])

/-- Index of the last occurrence of a character in a list, if any. -/
def lastIdxOf (c : Char) (l : List Char) : Option Nat :=
  match l.reverse.findIdx? (· = c) with
  | none => none
  | some j => some (l.length - 1 - j)

/-- `pathlib.PurePath.suffix`: the extension of the final path component.
CPython returns `name[i:]` for the last dot index `i` when `0 < i < len - 1`,
and `""` otherwise. -/
def pathSuffix (p : String) : String :=
  let n := (pathName p).toList
  match lastIdxOf '.' n with
  | none => ""
  | some i => if 0 < i ∧ i < n.length - 1 then String.mk (n.drop i) else ""

/-- Whether a path string is absolute (begins with "/"). -/
def isAbsolutePath (s : String) : Bool :=
  match s.toList with
  | [] => false
  | a :: _ => a = '/'

/-- `pathlib.Path.joinpath` on string paths: an empty child leaves the base
unchanged, an absolute child replaces it, otherwise the segments are joined
with "/". -/
def joinpath (base child : String) : String :=
  if child = "" then base
  else if isAbsolutePath child then child
  else base ++ "/" ++ child

/-- The `TestCaseInfo` dataclass with the types its annotations declare. -/
structure TestCaseInfo where
  name : String
  args : String
  env : List (String × String)
  timeout : PyFloat := .finite 0
  skip : Bool := false
  skipreason : String := ""

/-- One reporting-hook invocation or process-control action of the engine,
in the order it occurs during `runcase`.  `handleExit exitcode interrupt
timeout` mirrors the three parameters of `_handle_exit`: `Exited(code)` is
`handleExit (some code) false none`, `TimedOut(t)` is
`handleExit none false (some t)` and `Interrupted` is
`handleExit _ true none`. -/
inductive Event
  | handleSkip (casename : String) (reason : String)
  | handleUnknownCase (file : String)
  | beforeCmdRun (cmd : List String)
  | outputLine (line : String)
  | procTerminate
  | handleExit (exitcode : Option Int) (interrupt : Bool) (timeout : Option PyFloat)
  | handleUnknownException (detail : String)
  | afterCmdRun (cmd : List String)
deriving DecidableEq, Repr

/-- `BasicTestRunner.__resolve_cmd`: dispatch on the file extension, joining
the path and the argument string with a single space into one command
string. -/
def BasicTestRunner.resolve_cmd (filepath : String) (args : String) : Option (List String) :=
  let cmd := filepath ++ " " ++ args
  if pathSuffix filepath = ".sh" ∨ pathSuffix filepath = ".bash" then
    some ["bash", "-c", cmd]
  else if pathSuffix filepath = ".py" then
    some ["python", "-c", cmd]
  else
    none

/-- The mutable fields of `BasicTestRunner` that the claims mention
(`_status`, `_timer`, `_case_dir`, `dry_run`; `_log_dir` is unused by the
embedded operations). -/
structure BasicTestRunner where
  status : String
  timer : Option PyFloat
  case_dir : String
  dry_run : Bool

/-- `BasicTestRunner.__init__`. -/
def BasicTestRunner.init (sofTestDir : String) (dry_run : Bool) : BasicTestRunner :=
  { status := "Idle", timer := none, case_dir := joinpath sofTestDir "test-case",
    dry_run := dry_run }

/-- Exceptions that can escape the `try` block of `runcase` and reach its
`except` clauses. -/
inductive Exn
  | keyboardInterrupt
  | error (detail : String)

/-- One possible execution of the `try` block of `runcase`, at the
granularity of the source statements: where (if anywhere) a
`KeyboardInterrupt` or another exception strikes, which output lines the
child produces, whether the armed timer fires while the child is alive, and
the exit code the main loop observes.  `wait` gives the result of
`proc.wait(g)` for a grace period `g`: `some code` when the child exits
within `g`, `none` when `subprocess.TimeoutExpired` is raised. -/
inductive Scenario
  | spawnInterrupt
  | spawnFail (detail : String)
  | completes (lines : List String) (returncode : Int)
  | loopInterrupt (lines : List String) (procExited : Bool) (wait : ℚ → Option Int)
  | exitThenInterrupt (lines : List String) (returncode : Int)
  | timerFires (lines postLines : List String) (returncode : Int)
  | loopRaises (lines : List String) (detail : String)

/-- `proc.wait` result for scenarios in which it is never called. -/
def noWait : ℚ → Option Int := fun _ => none

/-- Result of running the `try` block: the events emitted inside it, the
exception escaping it (if any), whether `subprocess.Popen` was invoked, the
state of the local `proc` variable for the handlers (`none` = still `None`,
`some b` = a process whose `poll()` returned an exit code iff `b`), and the
`proc.wait` behavior. -/
structure TryResult where
  events : List Event
  exn : Option Exn
  spawned : Bool
  proc : Option Bool
  wait : ℚ → Option Int

/-- The `try` block of `runcase` (lines 66-86 of the source): spawn the
child, arm the timer when `math.isfinite(timeout) and timeout > 0`, stream
output lines, and emit `_handle_exit(proc.returncode)` when the stream ends
and the process has exited.  When the armed timer fires while the child is
alive, `_handle_timeout` terminates the child and emits
`_handle_exit(None, timeout=timeout)` from the timer thread; the main loop
then still observes the terminated child and emits
`_handle_exit(proc.returncode)`.  A `timerFires` scenario with no armed
timer degenerates to a normal completion. -/
def BasicTestRunner.tryBody (case : TestCaseInfo) (s : Scenario) : TryResult :=
  let armed := case.timeout.isfinite && case.timeout.gtZero
  match s with
  | .spawnInterrupt => ⟨[], some .keyboardInterrupt, false, none, noWait⟩
  | .spawnFail d => ⟨[], some (.error d), false, none, noWait⟩
  | .completes lines rc =>
      ⟨lines.map Event.outputLine ++ [.handleExit (some rc) false none],
       none, true, some true, noWait⟩
  | .loopInterrupt lines procExited w =>
      ⟨lines.map Event.outputLine, some .keyboardInterrupt, true, some procExited, w⟩
  | .exitThenInterrupt lines rc =>
      ⟨lines.map Event.outputLine ++ [.handleExit (some rc) false none],
       some .keyboardInterrupt, true, some true, noWait⟩
  | .timerFires lines postLines rc =>
      if armed then
        ⟨lines.map Event.outputLine
          ++ [.procTerminate, .handleExit none false (some case.timeout)]
          ++ postLines.map Event.outputLine
          ++ [.handleExit (some rc) false none],
         none, true, some true, noWait⟩
      else
        ⟨(lines ++ postLines).map Event.outputLine ++ [.handleExit (some rc) false none],
         none, true, some true, noWait⟩
  | .loopRaises lines d =>
      ⟨lines.map Event.outputLine, some (.error d), true, some true, noWait⟩

/-- `BasicTestRunner._handle_interrupt`: nothing when `proc` is `None` or
already exited; otherwise `terminate()`, then `_handle_exit(proc.wait(10),
interrupt=True)`, with `subprocess.TimeoutExpired` caught and reported as
`_handle_exit(None, interrupt=True)`. -/
def BasicTestRunner.handle_interrupt (proc : Option Bool) (wait : ℚ → Option Int) :
    List Event :=
  match proc with
  | none => []
  | some true => []
  | some false =>
      match wait 10 with
      | some code => [.procTerminate, .handleExit (some code) true none]
      | none => [.procTerminate, .handleExit none true none]

/-- The two `except` clauses of `runcase`: `KeyboardInterrupt` goes to
`_handle_interrupt`, any other `Exception` to `_handle_unknown_exception`. -/
def BasicTestRunner.exceptHandlers (t : TryResult) : List Event :=
  match t.exn with
  | none => []
  | some .keyboardInterrupt => BasicTestRunner.handle_interrupt t.proc t.wait
  | some (.error d) => [.handleUnknownException d]

/-- Observable result of one `runcase` call: the events emitted, whether
`subprocess.Popen` was invoked, and the value of `self._timer` afterwards. -/
structure RunResult where
  events : List Event
  spawned : Bool
  timerAfter : Option PyFloat
deriving Repr

/-- `BasicTestRunner.runcase`.  `is_file` models `pathlib.Path.is_file` on
the case directory.  The skip, unknown-case and dry-run paths return before
the `try` block, so the `finally` clause (which cancels the timer, clears
`proc` and calls `_after_cmd_run`) runs only on the spawning path. -/
def BasicTestRunner.runcase (self : BasicTestRunner) (is_file : String → Bool)
    (case : TestCaseInfo) (s : Scenario) : RunResult :=
  if case.skip then
    ⟨[.handleSkip case.name case.skipreason], false, self.timer⟩
  else
    let filepath := joinpath self.case_dir case.name
    match BasicTestRunner.resolve_cmd filepath case.args with
    | none => ⟨[.handleUnknownCase filepath], false, self.timer⟩
    | some cmd =>
      if pathName filepath = case.name ∧ is_file filepath = true then
        if self.dry_run then
          ⟨[.beforeCmdRun cmd, .handleExit (some 0) false none], false, self.timer⟩
        else
          let t := BasicTestRunner.tryBody case s
          ⟨Event.beforeCmdRun cmd ::
             (t.events ++ BasicTestRunner.exceptHandlers t ++ [.afterCmdRun cmd]),
           t.spawned, none⟩
      else
        ⟨[.handleUnknownCase filepath], false, self.timer⟩

/-- Terminal outcome events in the sense of the specification: `Exited`,
`TimedOut` and `Interrupted` (all emitted through `_handle_exit`) and
`SpawnOrRuntimeError` (emitted through `_handle_unknown_exception`). -/
def Event.isTerminalOutcome : Event → Bool
  | .handleExit _ _ _ => true
  | .handleUnknownException _ => true
  | _ => false

/-- Number of terminal outcome events in a trace. -/
def terminalCount (es : List Event) : Nat :=
  (es.filter Event.isTerminalOutcome).length

/-- Pre-run hook events. -/
def Event.isBeforeHook : Event → Bool
  | .beforeCmdRun _ => true
  | _ => false

/-- Post-run hook events. -/
def Event.isAfterHook : Event → Bool
  | .afterCmdRun _ => true
  | _ => false

/-- Number of events of a given kind in a trace. -/
def hookCount (p : Event → Bool) (es : List Event) : Nat :=
  (es.filter p).length

/-- JSON values as they occur in a profile file's case entries (the driver
only ever merges string-to-string environment objects). -/
inductive JVal
  | str (s : String)
  | num (q : ℚ)
  | bool (b : Bool)
  | dict (d : List (String × String))
  | null
deriving DecidableEq, Repr

/-- The dynamically typed values the `TestCaseInfo(...)` constructor call in
`LocalTestRunner.run` actually stores: Python does not enforce the dataclass
annotations, so each field holds whatever was passed positionally (`skip` is
a genuine `bool` because it is computed by `is not False`). -/
structure DynCaseInfo where
  name : JVal
  args : JVal
  env : JVal
  timeout : JVal
  skip : Bool
  skipreason : JVal
deriving DecidableEq, Repr

/-- Python `dict.get(k, default)` on a JSON object. -/
def pyDictGet (c : List (String × JVal)) (k : String) (dflt : JVal) : JVal :=
  (List.lookup k c).getD dflt

/-- Python `{**a, **b}`: keys of `a` in order with values overridden by `b`,
then the keys of `b` not in `a`. -/
def dictMerge (a b : List (String × String)) : List (String × String) :=
  a.map (fun p => match List.lookup p.1 b with | some v => (p.1, v) | none => p)
    ++ b.filter (fun p => (List.lookup p.1 a).isNone)

/-- The `TestCaseInfo(...)` constructor call of `LocalTestRunner.run`
(lines 175-182): the positional arguments are listed in source order, and the
dataclass declares its fields in the order `name, args, env, timeout, skip,
skipreason` — so the third argument `case.get('timeout', 0)` lands in the
`env` field and the fourth argument `{**env, **case.get('env', {})}` lands in
the `timeout` field.  `none` models an exception escaping the loop
(`KeyError` for a missing `name`, `TypeError` when the per-case `env` value
is not an object). -/
def mkCaseInfo (env : List (String × String)) (c : List (String × JVal)) :
    Option DynCaseInfo :=
  match List.lookup "name" c with
  | none => none
  | some n =>
    match pyDictGet c "env" (.dict []) with
    | .dict ce =>
        some { name := n,
               args := pyDictGet c "args" (.str ""),
               env := pyDictGet c "timeout" (.num 0),
               timeout := .dict (dictMerge env ce),
               skip := decide (pyDictGet c "skip" (.bool false) ≠ .bool false),
               skipreason := pyDictGet c "skip" (.str "Skipped") }
    | _ => none

/-- A parsed profile: `data.get('env', {})` and `data['cases']`. -/
structure BatchData where
  env : List (String × String)
  cases : List (List (String × JVal))

/-- The loop body of `LocalTestRunner.run`: build each descriptor and hand it
to `runcase`; an exception while building one descriptor escapes the loop
(second component `true`) and abandons the remaining entries. -/
def LocalTestRunner.processCases (env : List (String × String)) :
    List (List (String × JVal)) → List DynCaseInfo × Bool
  | [] => ([], false)
  | c :: rest =>
    match mkCaseInfo env c with
    | none => ([], true)
    | some info =>
        let r := LocalTestRunner.processCases env rest
        (info :: r.1, r.2)

/-- `LocalTestRunner.run`: set `_status` to `"Running"`, iterate the cases,
and reset `_status` to `"Idle"` in a `finally` clause — so the reset happens
on the raising path as well.  Returns the runner state, the descriptors
handed to `runcase`, and whether an exception escaped the loop. -/
def LocalTestRunner.run (self : BasicTestRunner) (data : BatchData) :
    BasicTestRunner × List DynCaseInfo × Bool :=
  let self1 : BasicTestRunner := { self with status := "Running" }
  let r := LocalTestRunner.processCases data.env data.cases
  ({ self1 with status := "Idle" }, r.1, r.2)

/-- Sample runner rooted at "/sof-test", not in dry-run mode. -/
def sampleRunner : BasicTestRunner := BasicTestRunner.init "/sof-test" false

/-- Sample runner in dry-run mode. -/
def sampleDryRunner : BasicTestRunner := BasicTestRunner.init "/sof-test" true

/-- Sample resolvable shell case. -/
def sampleCase : TestCaseInfo := { name := "a.sh", args := "-x", env := [("A", "1")] }

/-- The invocation the resolver produces for `sampleCase`. -/
def sampleCmd : List String := ["bash", "-c", "/sof-test/test-case/a.sh -x"]

/-- The rational 0.2 (built with the raw constructor so that it evaluates
by kernel reduction). -/
def ratPointTwo : ℚ := ⟨1, 5, by norm_num, Nat.coprime_one_left 5⟩

/-- Sample case with a 0.2-second timeout, as in the specification's timeout
example. -/
def timeoutCase : TestCaseInfo :=
  { name := "a.sh", args := "", env := [], timeout := .finite ratPointTwo }

/-- Run of `timeoutCase` in which the armed timer fires while the child is
alive (the child sleeps past the deadline), the terminated child's stream
then closes, and the main loop observes returncode -15 (SIGTERM). -/
def timeoutRun : RunResult :=
  BasicTestRunner.runcase sampleRunner (fun _ => true) timeoutCase (.timerFires [] [] (-15))

/-- A filter that rejects output-line events removes a mapped line list. -/
lemma outputs_filter_eq_nil (f : Event → Bool) (hf : ∀ t, f (Event.outputLine t) = false)
    (l : List String) : (l.map Event.outputLine).filter f = [] := by
  induction l with
  | nil => rfl
  | cons a t ih => simp [List.filter_cons, hf, ih]

/-- The `try` block emits only output lines, `_handle_exit` events and
process terminations. -/
lemma tryBody_filter_eq_nil (c : TestCaseInfo) (s : Scenario) (f : Event → Bool)
    (hout : ∀ t, f (Event.outputLine t) = false)
    (hexit : ∀ a b t0, f (Event.handleExit a b t0) = false)
    (hterm : f Event.procTerminate = false) :
    (BasicTestRunner.tryBody c s).events.filter f = [] := by
  cases s with
  | timerFires lines postLines rc =>
      simp only [BasicTestRunner.tryBody]
      split <;>
        simp [List.filter_append, List.filter_cons,
          outputs_filter_eq_nil f hout, hexit, hterm]
  | _ =>
      simp [BasicTestRunner.tryBody, List.filter_append, List.filter_cons,
        outputs_filter_eq_nil f hout, hexit, hterm]

/-- The `except` handlers emit only `_handle_exit` events, process
terminations and `_handle_unknown_exception` events. -/
lemma exceptHandlers_filter_eq_nil (t : TryResult) (f : Event → Bool)
    (hexit : ∀ a b t0, f (Event.handleExit a b t0) = false)
    (hterm : f Event.procTerminate = false)
    (hexc : ∀ d, f (Event.handleUnknownException d) = false) :
    (BasicTestRunner.exceptHandlers t).filter f = [] := by
  unfold BasicTestRunner.exceptHandlers
  cases t.exn with
  | none => rfl
  | some e =>
    cases e with
    | error d => simp [List.filter_cons, hexc]
    | keyboardInterrupt =>
      unfold BasicTestRunner.handle_interrupt
      cases t.proc with
      | none => rfl
      | some b =>
        cases b with
        | true => rfl
        | false => cases t.wait 10 <;> simp [List.filter_cons, hexit, hterm]

/-- On the spawning path (not skipped, resolvable, matching name, existing
file, not dry-run), `runcase` emits the pre-run hook, then the `try` block's
events, then the handler events, then the post-run hook, and clears the
timer in the `finally` clause. -/
lemma runcase_resolved (r : BasicTestRunner) (ff : String → Bool) (c : TestCaseInfo)
    (s : Scenario) (cmd : List String)
    (hskip : c.skip = false)
    (hcmd : BasicTestRunner.resolve_cmd (joinpath r.case_dir c.name) c.args = some cmd)
    (hname : pathName (joinpath r.case_dir c.name) = c.name)
    (hfile : ff (joinpath r.case_dir c.name) = true)
    (hdry : r.dry_run = false) :
    BasicTestRunner.runcase r ff c s
      = ⟨Event.beforeCmdRun cmd ::
           ((BasicTestRunner.tryBody c s).events
             ++ BasicTestRunner.exceptHandlers (BasicTestRunner.tryBody c s)
             ++ [Event.afterCmdRun cmd]),
         (BasicTestRunner.tryBody c s).spawned, none⟩ := by
  unfold BasicTestRunner.runcase
  simp only [hskip, Bool.false_eq_true, if_false, hcmd, hname, hfile, hdry, and_self,
    if_true, eq_self_iff_true]

/-- C6: the command resolver maps extension .sh or .bash to a shell
invocation whose single shell-command string is the path, a space and the
argument string; extension .py to a script-evaluating interpreter invocation
with the same combined string as a single command argument; and every other
extension to "not resolvable" (`none`) — never a default interpreter. -/
theorem resolve_cmd_dispatch (p a : String) :
    ((pathSuffix p = ".sh" ∨ pathSuffix p = ".bash") →
        BasicTestRunner.resolve_cmd p a = some ["bash", "-c", p ++ " " ++ a])
    ∧ (pathSuffix p = ".py" →
        BasicTestRunner.resolve_cmd p a = some ["python", "-c", p ++ " " ++ a])
    ∧ (pathSuffix p ≠ ".sh" → pathSuffix p ≠ ".bash" → pathSuffix p ≠ ".py" →
        BasicTestRunner.resolve_cmd p a = none) := by
  refine ⟨fun h => ?_, fun h => ?_, fun h1 h2 h3 => ?_⟩
  · rcases h with h | h <;> simp [BasicTestRunner.resolve_cmd, h]
  · simp [BasicTestRunner.resolve_cmd, h]
  · simp [BasicTestRunner.resolve_cmd, h1, h2, h3]

/-- Witness for `resolve_cmd_dispatch` at the three kinds of extensions. -/
theorem resolve_cmd_dispatch_witness :
    BasicTestRunner.resolve_cmd "d/x.bash" "1" = some ["bash", "-c", "d/x.bash 1"]
    ∧ BasicTestRunner.resolve_cmd "d/x.py" "1" = some ["python", "-c", "d/x.py 1"]
    ∧ BasicTestRunner.resolve_cmd "d/x.txt" "1" = none :=
  ⟨(resolve_cmd_dispatch "d/x.bash" "1").1 (Or.inr (by decide)),
   (resolve_cmd_dispatch "d/x.py" "1").2.1 (by decide),
   (resolve_cmd_dispatch "d/x.txt" "1").2.2 (by decide) (by decide) (by decide)⟩

/-- C5: for every non-skipped case whose resolved file does not satisfy the
checks of line 57 of the source — the base name differs from the requested
case name, `is_file` is false (missing or not a regular file), or the
resolver returns "not resolvable" (unsupported extension) — `runcase` emits
exactly one `UnknownCase` event and spawns no process. -/
theorem runcase_unknown_case (r : BasicTestRunner) (ff : String → Bool)
    (c : TestCaseInfo) (s : Scenario)
    (hskip : c.skip = false)
    (hbad : pathName (joinpath r.case_dir c.name) ≠ c.name
          ∨ ff (joinpath r.case_dir c.name) = false
          ∨ BasicTestRunner.resolve_cmd (joinpath r.case_dir c.name) c.args = none) :
    (BasicTestRunner.runcase r ff c s).events
        = [Event.handleUnknownCase (joinpath r.case_dir c.name)]
    ∧ (BasicTestRunner.runcase r ff c s).spawned = false := by
  unfold BasicTestRunner.runcase
  simp only [hskip, Bool.false_eq_true, if_false]
  cases hcmd : BasicTestRunner.resolve_cmd (joinpath r.case_dir c.name) c.args with
  | none => simp
  | some cmd =>
    have hcond : ¬(pathName (joinpath r.case_dir c.name) = c.name
        ∧ ff (joinpath r.case_dir c.name) = true) := by
      rintro ⟨h1, h2⟩
      rcases hbad with h | h | h
      · exact h h1
      · rw [h] at h2; exact Bool.false_ne_true h2
      · rw [h] at hcmd; exact Option.noConfusion hcmd
    simp [if_neg hcond]

/-- Witness for `runcase_unknown_case`: a case with an unsupported
extension. -/
theorem runcase_unknown_case_witness :
    (BasicTestRunner.runcase sampleRunner (fun _ => true)
        { name := "a.txt", args := "", env := [] } .spawnInterrupt).events
      = [Event.handleUnknownCase "/sof-test/test-case/a.txt"]
    ∧ (BasicTestRunner.runcase sampleRunner (fun _ => true)
        { name := "a.txt", args := "", env := [] } .spawnInterrupt).spawned = false :=
  runcase_unknown_case sampleRunner (fun _ => true)
    { name := "a.txt", args := "", env := [] } .spawnInterrupt rfl
    (Or.inr (Or.inr (by decide)))

/-- C8: the runner status is "Idle" after construction and is "Idle" again
after `LocalTestRunner.run` on any batch — including batches in which
building a descriptor raises an exception that escapes the driver loop
(third component of the result `true`), because the reset is in a `finally`
clause. -/
theorem run_status_idle (self : BasicTestRunner) (data : BatchData)
    (root : String) (d : Bool) :
    ((LocalTestRunner.run self data).1).status = "Idle"
    ∧ (BasicTestRunner.init root d).status = "Idle" :=
  ⟨rfl, rfl⟩

/-- C2 (code bug): the `TestCaseInfo(...)` call in `LocalTestRunner.run`
passes the entry's timeout value as the third positional argument and the
merged environment as the fourth, but the dataclass declares `env` third and
`timeout` fourth — so the descriptor's `env` field receives the timeout
number and its `timeout` field receives the merged environment map,
contradicting the dataclass's own annotations and the claim. -/
theorem run_swaps_env_and_timeout :
    (mkCaseInfo [] [("name", .str "a.sh"), ("timeout", .num 3),
        ("env", .dict [("K", "V")])]).map (fun i => (i.env, i.timeout))
      = some (JVal.num 3, JVal.dict [("K", "V")])
    ∧ (mkCaseInfo [] [("name", .str "a.sh"), ("timeout", .num 3),
        ("env", .dict [("K", "V")])]).map (fun i => (i.env, i.timeout))
      ≠ some (JVal.dict [("K", "V")], JVal.num 3) := by decide

/-- C9 (counterexample): an entry whose `skip` value is the boolean `true`
is skipped, but its skip reason is the value `true` itself, not the string
"Skipped" that the claim says is the default for merely-truthy values —
`case.get('skip', 'Skipped')` only falls back to "Skipped" when the key is
absent. -/
theorem mkCaseInfo_truthy_skip_reason :
    ((mkCaseInfo [] [("name", .str "a"), ("skip", .bool true)]).map DynCaseInfo.skip
        = some true)
    ∧ ((mkCaseInfo [] [("name", .str "a"), ("skip", .bool true)]).map DynCaseInfo.skipreason
        = some (.bool true))
    ∧ ((mkCaseInfo [] [("name", .str "a"), ("skip", .bool true)]).map DynCaseInfo.skipreason
        ≠ some (.str "Skipped")) := by decide

/-- C9 (amended): a `skip` value that is present and not identical to
`false` marks the case skipped, and the `skip` value itself — whatever its
type — is stored as the skip reason; the default reason "Skipped" applies
only when the `skip` key is absent, in which case the case is not skipped. -/
theorem mkCaseInfo_skip_semantics (env : List (String × String))
    (c : List (String × JVal)) (info : DynCaseInfo)
    (h : mkCaseInfo env c = some info) :
    (∀ v, List.lookup "skip" c = some v →
        info.skip = decide (v ≠ JVal.bool false) ∧ info.skipreason = v)
    ∧ (List.lookup "skip" c = none →
        info.skip = false ∧ info.skipreason = .str "Skipped") := by
  unfold mkCaseInfo at h
  cases hn : List.lookup "name" c with
  | none => rw [hn] at h; exact absurd h (by simp)
  | some n =>
    rw [hn] at h
    cases he : pyDictGet c "env" (.dict []) with
    | dict ce =>
      rw [he] at h
      have hinfo := Option.some.inj h
      constructor
      · intro v hv
        rw [← hinfo]
        simp [pyDictGet, hv]
      · intro hv
        rw [← hinfo]
        simp [pyDictGet, hv]
    | str s1 => rw [he] at h; exact absurd h (by simp)
    | num q => rw [he] at h; exact absurd h (by simp)
    | bool b => rw [he] at h; exact absurd h (by simp)
    | null => rw [he] at h; exact absurd h (by simp)

/-- Witness for `mkCaseInfo_skip_semantics`: the falsy-but-not-`False`
value 0 marks the case skipped and becomes the reason itself. -/
theorem mkCaseInfo_skip_semantics_witness :
    ({ name := JVal.str "a", args := JVal.str "", env := JVal.num 0,
       timeout := JVal.dict [], skip := true,
       skipreason := JVal.num 0 } : DynCaseInfo).skip
        = decide (JVal.num 0 ≠ JVal.bool false)
    ∧ ({ name := JVal.str "a", args := JVal.str "", env := JVal.num 0,
         timeout := JVal.dict [], skip := true,
         skipreason := JVal.num 0 } : DynCaseInfo).skipreason = JVal.num 0 :=
  (mkCaseInfo_skip_semantics [] [("name", .str "a"), ("skip", .num 0)] _ (by decide)).1
    (JVal.num 0) (by decide)

/-- A list ending in a singleton has that element as its last element. -/
lemma getLast_cons_append_singleton (a b : Event) (l1 l2 : List Event) :
    (a :: (l1 ++ l2 ++ [b])).getLast? = some b := by
  have h : a :: (l1 ++ l2 ++ [b]) = (a :: (l1 ++ l2)) ++ [b] := by simp
  rw [h, List.getLast?_concat]

/-- C3 (counterexample): in dry-run mode `runcase` returns right after
emitting `Exited(0)` (line 63 of the source), before entering the
`try`/`finally` block, so the post-run hook `_after_cmd_run` is never
invoked — the claim's "including dry-run mode" fails on the code. -/
theorem runcase_dry_run_skips_after_hook :
    (BasicTestRunner.runcase sampleDryRunner (fun _ => true) sampleCase
        (.completes [] 0)).events
      = [Event.beforeCmdRun sampleCmd, Event.handleExit (some 0) false none]
    ∧ hookCount Event.isAfterHook
        (BasicTestRunner.runcase sampleDryRunner (fun _ => true) sampleCase
          (.completes [] 0)).events = 0 := by decide

/-- C3 (amended): for every non-skipped resolvable case run in non-dry-run
mode, the pre-run and post-run hooks are each invoked exactly once — first
and last events — on every path through the `try`/`except`/`finally`, and
the cleanup clause clears the timer; in dry-run mode only the pre-run hook
is invoked, and the function returns after emitting `Exited(0)` without
reaching the post-run hook. -/
theorem runcase_hooks (r : BasicTestRunner) (ff : String → Bool) (c : TestCaseInfo)
    (s : Scenario) (cmd : List String)
    (hskip : c.skip = false)
    (hcmd : BasicTestRunner.resolve_cmd (joinpath r.case_dir c.name) c.args = some cmd)
    (hname : pathName (joinpath r.case_dir c.name) = c.name)
    (hfile : ff (joinpath r.case_dir c.name) = true) :
    (r.dry_run = true →
        (BasicTestRunner.runcase r ff c s).events
          = [Event.beforeCmdRun cmd, Event.handleExit (some 0) false none])
    ∧ (r.dry_run = false →
        hookCount Event.isBeforeHook (BasicTestRunner.runcase r ff c s).events = 1
        ∧ hookCount Event.isAfterHook (BasicTestRunner.runcase r ff c s).events = 1
        ∧ (BasicTestRunner.runcase r ff c s).events.head? = some (Event.beforeCmdRun cmd)
        ∧ (BasicTestRunner.runcase r ff c s).events.getLast? = some (Event.afterCmdRun cmd)
        ∧ (BasicTestRunner.runcase r ff c s).timerAfter = none) := by
  constructor
  · intro hdry
    unfold BasicTestRunner.runcase
    simp only [hskip, Bool.false_eq_true, if_false, hcmd, hname, hfile, hdry, and_self,
      if_true, eq_self_iff_true]
  · intro hdry
    rw [runcase_resolved r ff c s cmd hskip hcmd hname hfile hdry]
    have hb := tryBody_filter_eq_nil c s Event.isBeforeHook (fun _ => rfl)
      (fun _ _ _ => rfl) rfl
    have hb2 := exceptHandlers_filter_eq_nil (BasicTestRunner.tryBody c s)
      Event.isBeforeHook (fun _ _ _ => rfl) rfl (fun _ => rfl)
    have ha := tryBody_filter_eq_nil c s Event.isAfterHook (fun _ => rfl)
      (fun _ _ _ => rfl) rfl
    have ha2 := exceptHandlers_filter_eq_nil (BasicTestRunner.tryBody c s)
      Event.isAfterHook (fun _ _ _ => rfl) rfl (fun _ => rfl)
    refine ⟨?_, ?_, rfl, ?_, rfl⟩
    · simp [hookCount, List.filter_cons, List.filter_append, hb, hb2, Event.isBeforeHook]
    · simp [hookCount, List.filter_cons, List.filter_append, ha, ha2, Event.isAfterHook]
    · exact getLast_cons_append_singleton _ _ _ _

/-- Witness for `runcase_hooks`: a normally completing non-dry-run case. -/
theorem runcase_hooks_witness :
    hookCount Event.isBeforeHook
        (BasicTestRunner.runcase sampleRunner (fun _ => true) sampleCase
          (.completes ["hello"] 0)).events = 1
    ∧ hookCount Event.isAfterHook
        (BasicTestRunner.runcase sampleRunner (fun _ => true) sampleCase
          (.completes ["hello"] 0)).events = 1
    ∧ (BasicTestRunner.runcase sampleRunner (fun _ => true) sampleCase
        (.completes ["hello"] 0)).events.head? = some (Event.beforeCmdRun sampleCmd)
    ∧ (BasicTestRunner.runcase sampleRunner (fun _ => true) sampleCase
        (.completes ["hello"] 0)).events.getLast? = some (Event.afterCmdRun sampleCmd)
    ∧ (BasicTestRunner.runcase sampleRunner (fun _ => true) sampleCase
        (.completes ["hello"] 0)).timerAfter = none :=
  (runcase_hooks sampleRunner (fun _ => true) sampleCase (.completes ["hello"] 0) sampleCmd
    rfl (by decide) (by decide) rfl).2 rfl

/-- C4: a `KeyboardInterrupt` while the child is alive makes the handler
terminate it and wait up to 10 time units: `Interrupted` carries the exit
code when `proc.wait(10)` returns one, and no code when the grace period
elapses (`TimeoutExpired`); an interrupt arriving after the child exited and
its `Exited` outcome was emitted adds no further outcome (the run still has
exactly one terminal outcome). -/
theorem runcase_interrupt_handling (r : BasicTestRunner) (ff : String → Bool)
    (c : TestCaseInfo) (cmd : List String) (lines : List String)
    (w : ℚ → Option Int) (rc : Int)
    (hskip : c.skip = false)
    (hcmd : BasicTestRunner.resolve_cmd (joinpath r.case_dir c.name) c.args = some cmd)
    (hname : pathName (joinpath r.case_dir c.name) = c.name)
    (hfile : ff (joinpath r.case_dir c.name) = true)
    (hdry : r.dry_run = false) :
    ((BasicTestRunner.runcase r ff c (.loopInterrupt lines false w)).events
       = Event.beforeCmdRun cmd ::
           (lines.map Event.outputLine
             ++ (match w 10 with
                 | some code => [Event.procTerminate, Event.handleExit (some code) true none]
                 | none => [Event.procTerminate, Event.handleExit none true none])
             ++ [Event.afterCmdRun cmd]))
    ∧ ((BasicTestRunner.runcase r ff c (.exitThenInterrupt lines rc)).events
       = Event.beforeCmdRun cmd ::
           (lines.map Event.outputLine
             ++ [Event.handleExit (some rc) false none, Event.afterCmdRun cmd]))
    ∧ terminalCount (BasicTestRunner.runcase r ff c (.exitThenInterrupt lines rc)).events
       = 1 := by
  refine ⟨?_, ?_, ?_⟩
  · rw [runcase_resolved r ff c _ cmd hskip hcmd hname hfile hdry]
    cases hw : w 10 <;>
      simp [BasicTestRunner.tryBody, BasicTestRunner.exceptHandlers,
        BasicTestRunner.handle_interrupt, hw]
  · rw [runcase_resolved r ff c _ cmd hskip hcmd hname hfile hdry]
    simp [BasicTestRunner.tryBody, BasicTestRunner.exceptHandlers,
      BasicTestRunner.handle_interrupt]
  · rw [runcase_resolved r ff c _ cmd hskip hcmd hname hfile hdry]
    simp [terminalCount, BasicTestRunner.tryBody, BasicTestRunner.exceptHandlers,
      BasicTestRunner.handle_interrupt, List.filter_cons, List.filter_append,
      outputs_filter_eq_nil Event.isTerminalOutcome (fun _ => rfl), Event.isTerminalOutcome]

/-- Witness for `runcase_interrupt_handling`: the child exits with code 7
inside the grace period. -/
theorem runcase_interrupt_handling_witness :
    ((BasicTestRunner.runcase sampleRunner (fun _ => true) sampleCase
        (.loopInterrupt ["x"] false (fun _ => some 7))).events
      = [Event.beforeCmdRun sampleCmd, Event.outputLine "x", Event.procTerminate,
         Event.handleExit (some 7) true none, Event.afterCmdRun sampleCmd])
    ∧ ((BasicTestRunner.runcase sampleRunner (fun _ => true) sampleCase
        (.exitThenInterrupt ["x"] 4)).events
      = [Event.beforeCmdRun sampleCmd, Event.outputLine "x",
         Event.handleExit (some 4) false none, Event.afterCmdRun sampleCmd])
    ∧ terminalCount (BasicTestRunner.runcase sampleRunner (fun _ => true) sampleCase
        (.exitThenInterrupt ["x"] 4)).events = 1 := by
  have h := runcase_interrupt_handling sampleRunner (fun _ => true) sampleCase sampleCmd
    ["x"] (fun _ => some 7) 4 rfl (by decide) (by decide) rfl rfl
  exact ⟨by rw [h.1]; simp, by rw [h.2.1]; simp, h.2.2⟩

/-- C7: exceptions not anticipated by the skip/resolve/dry-run/timeout/
interrupt paths — a `Popen` failure or any other `Exception` raised inside
the `try` block — are caught by the top-level `except Exception` clause of
`runcase` and reported as exactly one `_handle_unknown_exception` event
(the `SpawnOrRuntimeError` outcome); the run still ends with the cleanup
hook, and no exception escapes `runcase` (the embedded `Exn` is consumed by
the handlers, so `runcase` is total). -/
theorem runcase_exception_reported (r : BasicTestRunner) (ff : String → Bool)
    (c : TestCaseInfo) (cmd : List String) (lines : List String) (d : String)
    (hskip : c.skip = false)
    (hcmd : BasicTestRunner.resolve_cmd (joinpath r.case_dir c.name) c.args = some cmd)
    (hname : pathName (joinpath r.case_dir c.name) = c.name)
    (hfile : ff (joinpath r.case_dir c.name) = true)
    (hdry : r.dry_run = false) :
    ((BasicTestRunner.runcase r ff c (.spawnFail d)).events
        = [Event.beforeCmdRun cmd, Event.handleUnknownException d, Event.afterCmdRun cmd])
    ∧ ((BasicTestRunner.runcase r ff c (.loopRaises lines d)).events
        = Event.beforeCmdRun cmd ::
            (lines.map Event.outputLine
              ++ [Event.handleUnknownException d] ++ [Event.afterCmdRun cmd]))
    ∧ terminalCount (BasicTestRunner.runcase r ff c (.loopRaises lines d)).events = 1
    ∧ (BasicTestRunner.runcase r ff c (.loopRaises lines d)).events.getLast?
        = some (Event.afterCmdRun cmd) := by
  refine ⟨?_, ?_, ?_, ?_⟩
  · rw [runcase_resolved r ff c _ cmd hskip hcmd hname hfile hdry]
    simp [BasicTestRunner.tryBody, BasicTestRunner.exceptHandlers]
  · rw [runcase_resolved r ff c _ cmd hskip hcmd hname hfile hdry]
    simp [BasicTestRunner.tryBody, BasicTestRunner.exceptHandlers]
  · rw [runcase_resolved r ff c _ cmd hskip hcmd hname hfile hdry]
    simp [terminalCount, BasicTestRunner.tryBody, BasicTestRunner.exceptHandlers,
      List.filter_cons, List.filter_append,
      outputs_filter_eq_nil Event.isTerminalOutcome (fun _ => rfl), Event.isTerminalOutcome]
  · rw [runcase_resolved r ff c _ cmd hskip hcmd hname hfile hdry]
    exact getLast_cons_append_singleton _ _ _ _

/-- Witness for `runcase_exception_reported`: a spawn failure and a failure
while reading output. -/
theorem runcase_exception_reported_witness :
    ((BasicTestRunner.runcase sampleRunner (fun _ => true) sampleCase
        (.spawnFail "boom")).events
      = [Event.beforeCmdRun sampleCmd, Event.handleUnknownException "boom",
         Event.afterCmdRun sampleCmd])
    ∧ terminalCount (BasicTestRunner.runcase sampleRunner (fun _ => true) sampleCase
        (.loopRaises ["y"] "boom")).events = 1 := by
  have h := runcase_exception_reported sampleRunner (fun _ => true) sampleCase sampleCmd
    ["y"] "boom" rfl (by decide) (by decide) rfl rfl
  exact ⟨h.1, h.2.2.1⟩

/-- C10: a `KeyboardInterrupt` raised inside the `try` block while `proc`
is still `None` (interrupt during `Popen`) or when the child has already
exited makes `_handle_interrupt` emit nothing: the run produces zero
terminal outcome events, yet the `finally` cleanup and the post-run hook
still execute. -/
theorem runcase_interrupt_silent (r : BasicTestRunner) (ff : String → Bool)
    (c : TestCaseInfo) (cmd : List String) (lines : List String)
    (w : ℚ → Option Int)
    (hskip : c.skip = false)
    (hcmd : BasicTestRunner.resolve_cmd (joinpath r.case_dir c.name) c.args = some cmd)
    (hname : pathName (joinpath r.case_dir c.name) = c.name)
    (hfile : ff (joinpath r.case_dir c.name) = true)
    (hdry : r.dry_run = false) :
    ((BasicTestRunner.runcase r ff c .spawnInterrupt).events
        = [Event.beforeCmdRun cmd, Event.afterCmdRun cmd])
    ∧ ((BasicTestRunner.runcase r ff c (.loopInterrupt lines true w)).events
        = Event.beforeCmdRun cmd :: (lines.map Event.outputLine ++ [Event.afterCmdRun cmd]))
    ∧ terminalCount (BasicTestRunner.runcase r ff c .spawnInterrupt).events = 0
    ∧ terminalCount (BasicTestRunner.runcase r ff c (.loopInterrupt lines true w)).events
        = 0
    ∧ (BasicTestRunner.runcase r ff c (.loopInterrupt lines true w)).timerAfter = none := by
  refine ⟨?_, ?_, ?_, ?_, ?_⟩
  · rw [runcase_resolved r ff c _ cmd hskip hcmd hname hfile hdry]
    simp [BasicTestRunner.tryBody, BasicTestRunner.exceptHandlers,
      BasicTestRunner.handle_interrupt]
  · rw [runcase_resolved r ff c _ cmd hskip hcmd hname hfile hdry]
    simp [BasicTestRunner.tryBody, BasicTestRunner.exceptHandlers,
      BasicTestRunner.handle_interrupt]
  · rw [runcase_resolved r ff c _ cmd hskip hcmd hname hfile hdry]
    simp [terminalCount, BasicTestRunner.tryBody, BasicTestRunner.exceptHandlers,
      BasicTestRunner.handle_interrupt, List.filter_cons, Event.isTerminalOutcome]
  · rw [runcase_resolved r ff c _ cmd hskip hcmd hname hfile hdry]
    simp [terminalCount, BasicTestRunner.tryBody, BasicTestRunner.exceptHandlers,
      BasicTestRunner.handle_interrupt, List.filter_cons, List.filter_append,
      outputs_filter_eq_nil Event.isTerminalOutcome (fun _ => rfl), Event.isTerminalOutcome]
  · rw [runcase_resolved r ff c _ cmd hskip hcmd hname hfile hdry]

/-- Witness for `runcase_interrupt_silent`. -/
theorem runcase_interrupt_silent_witness :
    terminalCount (BasicTestRunner.runcase sampleRunner (fun _ => true) sampleCase
        .spawnInterrupt).events = 0
    ∧ terminalCount (BasicTestRunner.runcase sampleRunner (fun _ => true) sampleCase
        (.loopInterrupt ["z"] true noWait)).events = 0 := by
  have h := runcase_interrupt_silent sampleRunner (fun _ => true) sampleCase sampleCmd
    ["z"] noWait rfl (by decide) (by decide) rfl rfl
  exact ⟨h.2.2.1, h.2.2.2.1⟩

/-- C1 (code bug): for a resolvable case with timeout 0.2 whose child
outlives the deadline, the fired timer terminates the child and emits
`TimedOut(0.2)`, but the main loop then also emits `Exited(-15)` once the
terminated child's stream closes — two terminal outcomes for one run, where
the claim requires exactly one. -/
theorem runcase_timeout_two_terminal_outcomes :
    timeoutRun.events
      = [Event.beforeCmdRun ["bash", "-c", "/sof-test/test-case/a.sh "],
         Event.procTerminate,
         Event.handleExit none false (some (.finite ratPointTwo)),
         Event.handleExit (some (-15)) false none,
         Event.afterCmdRun ["bash", "-c", "/sof-test/test-case/a.sh "]]
    ∧ terminalCount timeoutRun.events = 2 := by decide
